import Mathlib

/-!
Shallow embedding of the meeting-capture engine of
`src/backend/src/services/meetingBot.ts` (class `SelfHostedMeetingBot` and its
helper functions), together with theorems settling the frozen claims about it.

Conventions of the embedding:
* Wall-clock instants and millisecond durations are `Nat` (the code only ever
  subtracts an earlier instant from a later one).
* `confidence` values are exact rationals (`0.95` in the code is `19/20`).
* External nondeterminism (screenshot success, platform-adapter outcome,
  Whisper output, FFmpeg exit status) is passed in as explicit parameters.
* The filesystem is a finite map from (directory, file name) to file size,
  plus the set of existing directories; `node`'s `join(d, n)` is `d ++ "/" ++ n`.
* Subprocess spawns are recorded as events: an FFmpeg encoding invocation is
  logged as an `EncoderCall` holding the exact argument list the code builds.
-/

namespace MeetingBot

/-- `join(process.cwd(), 'recordings')` (`meetingBot.ts` line 323); the working
directory is abstracted away, so the root is the literal `"recordings"`. -/
def RECORDINGS_DIR : String := "recordings"

/-- JavaScript `String(n).padStart(w, '0')` for a natural number `n`. -/
def padStartZeros (w : Nat) (s : String) : String :=
  String.mk (List.replicate (w - s.length) '0') ++ s

/-- `String(n).padStart(6, '0')` as used for frame file names (line 1999). -/
def pad6 (n : Nat) : String := padStartZeros 6 (toString n)

/-- `n.toString().padStart(2, '0')` as used by `formatTimestamp` (line 2326). -/
def pad2 (n : Nat) : String := padStartZeros 2 (toString n)

/-- `SelfHostedMeetingBot.formatTimestamp` (lines 2322–2327): floor to seconds,
then render `HH:MM:SS` with two-digit padding; hours are never reduced mod 24. -/
def formatTimestamp (ms : Nat) : String :=
  let seconds := ms / 1000
  let minutes := seconds / 60
  let hours := minutes / 60
  pad2 hours ++ ":" ++ pad2 (minutes % 60) ++ ":" ++ pad2 (seconds % 60)

/-- Whether the first character list is a prefix of the second. -/
def listIsPrefixOf : List Char → List Char → Bool
  | [], _ => true
  | _ :: _, [] => false
  | a :: as, b :: bs => (a == b) && listIsPrefixOf as bs

/-- Whether `pat` occurs as a contiguous substring of `s`. -/
def jsIncludesAux (pat : List Char) : List Char → Bool
  | [] => listIsPrefixOf pat []
  | c :: rest => listIsPrefixOf pat (c :: rest) || jsIncludesAux pat rest

/-- JavaScript `url.includes(pat)`: substring containment. -/
def jsIncludes (s pat : String) : Bool := jsIncludesAux pat.data s.data

/-- JavaScript `f.endsWith(post)`: suffix test. -/
def jsEndsWith (s post : String) : Bool :=
  listIsPrefixOf post.data.reverse s.data.reverse

/-- `detectPlatform` (lines 438–452): substring rules on the meeting URL; the
`type` component is always `"web"` and is dropped here. -/
def detectPlatform (url : String) : String :=
  if jsIncludes url "zoom.us" || jsIncludes url "zoom.com" then "zoom"
  else if jsIncludes url "meet.google.com" then "google_meet"
  else if jsIncludes url "teams.microsoft.com" || jsIncludes url "teams.live.com" then "teams"
  else if jsIncludes url "webex.com" then "webex"
  else "unknown"

/-- `interface TranscriptSegment` (lines 354–359). -/
structure TranscriptSegment where
  speaker : String
  text : String
  timestamp : Nat
  confidence : ℚ
deriving Repr, DecidableEq

/-- The filesystem the engine touches: a set of directories and a finite list
of files, each file keyed by its directory and name and carrying its size in
bytes.  A full path is `dir ++ "/" ++ name` (node's `join`). -/
structure FS where
  dirs : List String
  entries : List (String × String × Nat)
deriving Repr, DecidableEq

/-- `existsSync` on a directory. -/
def FS.dirExists (fs : FS) (d : String) : Bool := fs.dirs.contains d

/-- `readdirSync(d)`: the names of the files whose directory is `d`. -/
def FS.readdir (fs : FS) (d : String) : List String :=
  (fs.entries.filter (fun e => e.1 == d)).map (fun e => e.2.1)

/-- `existsSync` on a full file path. -/
def FS.fileExists (fs : FS) (p : String) : Bool :=
  fs.entries.any (fun e => e.1 ++ "/" ++ e.2.1 == p)

/-- `statSync(p).size`, when the file exists. -/
def FS.fileSize (fs : FS) (p : String) : Option Nat :=
  (fs.entries.find? (fun e => e.1 ++ "/" ++ e.2.1 == p)).map (fun e => e.2.2)

/-- Writing a file of size `sz` at directory `d`, name `n` (overwrites). -/
def FS.writeFile (fs : FS) (d n : String) (sz : Nat) : FS :=
  { fs with entries := (d, n, sz) :: fs.entries.filter (fun e => !(e.1 == d && e.2.1 == n)) }

/-- `mkdirSync(d, {recursive:true})`. -/
def FS.mkdir (fs : FS) (d : String) : FS :=
  if fs.dirs.contains d then fs else { fs with dirs := d :: fs.dirs }

/-- `interface MeetingSession` (lines 331–352).  Handles (`browser`, `page`,
`cdpSession`, `ffmpegProcess`) and the two `setInterval` handles are modelled
as booleans recording whether the handle is currently non-null. -/
structure MeetingSession where
  id : String
  meetingId : String
  meetingUrl : String
  platform : String
  hasBrowser : Bool
  hasPage : Bool
  hasCdpSession : Bool
  hasFfmpegProcess : Bool
  status : String
  startTime : Nat
  transcriptSegments : List TranscriptSegment
  videoFilePath : String
  audioFilePath : String
  framesDir : String
  screenshotPaths : List String
  captionIntervalActive : Bool
  screencastIntervalActive : Bool
  isRecording : Bool
  frameCount : Nat
deriving Repr, DecidableEq

/-- `interface PersistedSession` (lines 367–374); `startTime` is stored by the
code as an ISO-8601 string and is modelled as the underlying instant. -/
structure PersistedSession where
  meetingId : String
  sessionId : String
  platform : String
  framesDir : String
  startTime : Nat
  frameCount : Nat
deriving Repr, DecidableEq

/-- One recorded `spawn('ffmpeg', args)` that encodes frames to MP4:
either `convertFramesToVideo` (lines 1652–1716) or the inline spawn in
`recoverAndProcessSession` (lines 2354–2376). -/
structure EncoderCall where
  framesDir : String
  videoPath : String
  fps : Nat
  withAudio : Bool
  args : List String
deriving Repr, DecidableEq

/-- A JavaScript `Map` keyed by strings, as an association list in most
recently inserted first order. -/
def mapSet {α : Type} (m : List (String × α)) (k : String) (v : α) :
    List (String × α) :=
  (k, v) :: m.filter (fun e => e.1 != k)

/-- `Map.get`. -/
def mapGet {α : Type} (m : List (String × α)) (k : String) : Option α :=
  (m.find? (fun e => e.1 == k)).map (fun e => e.2)

/-- `Map.delete`. -/
def mapDel {α : Type} (m : List (String × α)) (k : String) :
    List (String × α) :=
  m.filter (fun e => e.1 != k)

/-- The process-wide mutable state the engine owns: the `activeSessions`
registry (line 362), the contents of `recordings/active_sessions.json`
(the persistence file, line 365), the filesystem, and the log of encoding
subprocess invocations. -/
structure EngineState where
  activeSessions : List (String × MeetingSession)
  persisted : List (String × PersistedSession)
  fs : FS
  encoderCalls : List EncoderCall
deriving Repr, DecidableEq

/-- The FFmpeg argument list built by `convertFramesToVideo` when it merges
frames with audio (lines 1662–1675). -/
def withAudioArgs (framesDir videoPath : String) (fps : Nat) (audioPath : String) :
    List String :=
  ["-framerate", toString fps, "-i", framesDir ++ "/frame_%06d.png",
   "-i", audioPath, "-c:v", "libx264", "-pix_fmt", "yuv420p", "-c:a", "aac",
   "-b:a", "128k", "-crf", "23", "-preset", "fast", "-shortest", "-y", videoPath]

/-- The FFmpeg argument list built by `convertFramesToVideo` for the
video-only case (lines 1678–1687). -/
def videoOnlyArgs (framesDir videoPath : String) (fps : Nat) : List String :=
  ["-framerate", toString fps, "-i", framesDir ++ "/frame_%06d.png",
   "-c:v", "libx264", "-pix_fmt", "yuv420p", "-crf", "23", "-preset", "fast",
   "-y", videoPath]

/-- `convertFramesToVideo` (lines 1652–1716), as the encoder invocation it
spawns.  The audio branch is taken exactly when `audioPath` was passed, is a
truthy (nonempty) string, and `existsSync(audioPath)` holds — the code checks
nothing about the audio file's size here. -/
def convertFramesToVideo (fs : FS) (framesDir videoPath : String) (fps : Nat)
    (audioPath : Option String) : EncoderCall :=
  let useAudio : Bool :=
    match audioPath with
    | some p => (p != "") && fs.fileExists p
    | none => false
  { framesDir := framesDir, videoPath := videoPath, fps := fps,
    withAudio := useAudio,
    args := if useAudio then
        withAudioArgs framesDir videoPath fps (audioPath.getD "")
      else videoOnlyArgs framesDir videoPath fps }

/-- `startAudioRecording` (lines 1867–1929): spawns the long-lived FFmpeg
audio child and stores its handle on the session; spawn errors only arrive
asynchronously, so the handle is always set. -/
def startAudioRecording (s : MeetingSession) : MeetingSession :=
  { s with hasFfmpegProcess := true }

/-- `stopAudioRecording` (lines 1932–1979): if an audio child is live, quit
it and clear the handle; then, when the audio file exists and is larger than
5000 bytes, append the Whisper transcription output (`whisper`, an external
input) to `transcriptSegments`. -/
def stopAudioRecording (s : MeetingSession) (fs : FS)
    (whisper : List TranscriptSegment) : MeetingSession :=
  if s.hasFfmpegProcess then
    let s := { s with hasFfmpegProcess := false }
    if fs.fileExists s.audioFilePath then
      match fs.fileSize s.audioFilePath with
      | some sz =>
          if sz > 5000 then
            { s with transcriptSegments := s.transcriptSegments ++ whisper }
          else s
      | none => s
    else s
  else s

/-- `startRecording` (lines 1981–2023): guard on `page` and `cdpSession`,
set `isRecording`, reset `frameCount` to `0`, set status `recording`, start
the audio child, and install the 500 ms screencast interval. -/
def startRecording (s : MeetingSession) : MeetingSession :=
  if !s.hasPage || !s.hasCdpSession then s
  else
    let s := { s with isRecording := true, frameCount := 0, status := "recording" }
    let s := startAudioRecording s
    { s with screencastIntervalActive := true }

/-- One tick of the screencast interval callback (lines 1995–2016): skip
when not recording or the page is gone; otherwise write
`frames_dir/frame_<frameCount padded to 6>.png` and increment `frameCount`
only if the screenshot succeeded (`shotOk`); failures are swallowed. -/
def frameTick (fs : FS) (s : MeetingSession) (shotOk : Bool) :
    FS × MeetingSession :=
  if !s.isRecording || !s.hasPage then (fs, s)
  else if shotOk then
    (fs.writeFile s.framesDir ("frame_" ++ pad6 s.frameCount ++ ".png") 1,
     { s with frameCount := s.frameCount + 1 })
  else (fs, s)

/-- A run of consecutive screencast ticks, one `Bool` per tick recording
whether that tick's screenshot succeeded. -/
def runFrameTicks (fs : FS) (s : MeetingSession) (oks : List Bool) :
    FS × MeetingSession :=
  match oks with
  | [] => (fs, s)
  | ok :: rest =>
      let p := frameTick fs s ok
      runFrameTicks p.1 p.2 rest

/-- `stopRecording` (lines 2026–2052): no-op unless recording; otherwise
clear `isRecording` and the screencast interval, stop the audio child (which
may append Whisper segments), and — when `frameCount > 0` — invoke the
encoder on the frames directory at 2 fps passing the session's audio path.
Returns the updated filesystem, the encoder calls made (zero or one), and the
updated session; `encOk` is the encoder child's exit status, which on success
materialises the MP4. -/
def stopRecording (fs : FS) (s : MeetingSession)
    (whisper : List TranscriptSegment) (encOk : Bool) :
    FS × List EncoderCall × MeetingSession :=
  if !s.isRecording then (fs, [], s)
  else
    let s := { s with isRecording := false, screencastIntervalActive := false }
    let s := stopAudioRecording s fs whisper
    if s.frameCount > 0 then
      let call := convertFramesToVideo fs s.framesDir s.videoFilePath 2
        (some s.audioFilePath)
      let fs := if encOk then fs.writeFile RECORDINGS_DIR (s.id ++ "_video.mp4") 1 else fs
      (fs, [call], s)
    else (fs, [], s)

/-- One caption candidate as produced by the in-page scrape (lines
2064–2148): the page-side strategies already default the speaker, via
`?.textContent?.trim() || 'Speaker'`. -/
structure Caption where
  speaker : String
  text : String
deriving Repr, DecidableEq

/-- JavaScript `x || d` for an optional string (`undefined`, `null` and `""`
are all falsy), as used to default a scraped speaker name to `"Speaker"`. -/
def jsOrElse (x : Option String) (d : String) : String :=
  match x with
  | some t => if t = "" then d else t
  | none => d

/-- The per-candidate body of the caption-capture loop (lines 2150–2161):
append a new segment — timestamp `now - startTime`, confidence `0.95` —
iff the transcript is empty or its last segment's text differs. -/
def processCaption (s : MeetingSession) (now : Nat) (c : Caption) :
    MeetingSession :=
  match s.transcriptSegments.getLast? with
  | none =>
      { s with transcriptSegments := s.transcriptSegments ++
          [⟨c.speaker, c.text, now - s.startTime, (19 : ℚ)/20⟩] }
  | some lastSegment =>
      if lastSegment.text ≠ c.text then
        { s with transcriptSegments := s.transcriptSegments ++
            [⟨c.speaker, c.text, now - s.startTime, (19 : ℚ)/20⟩] }
      else s

/-- One tick of the caption-capture interval (lines 2056–2171), restricted to
its transcript effect: fold the dedup-append over the scraped candidates.
(The code reads `Date.now()` per append; ticks are 2 s apart, so a single
`now` per tick is used here.) -/
def captionTick (s : MeetingSession) (now : Nat) (cands : List Caption) :
    MeetingSession :=
  cands.foldl (fun acc c => processCaption acc now c) s

/-- The object returned by `joinMeeting` (lines 1839–1845 / 1858–1861). -/
structure JoinResult where
  success : Bool
  sessionId : Option String := none
  platform : Option String := none
  message : Option String := none
  recordingStarted : Option Bool := none
  error : Option String := none
deriving Repr, DecidableEq

/-- The object returned by `leaveMeeting` (lines 2261–2269 / 2274–2277) and
by `recoverAndProcessSession` (lines 2339 / 2347 / 2393–2401); fields absent
from a given return site stay at their defaults. -/
structure LeaveResult where
  success : Bool
  duration : Option Nat := none
  transcript : Option String := none
  transcriptSegments : List TranscriptSegment := []
  videoPath : Option String := none
  screenshots : List String := []
  frameCount : Option Nat := none
  meetingId : Option String := none
  message : Option String := none
  error : Option String := none
deriving Repr, DecidableEq

/-- `SelfHostedMeetingBot.joinMeeting` (lines 1722–1863).  `sessionId` stands
for the fresh `uuidv4()`, `now` for `new Date()`, and `joinSuccess` for the
platform adapter's outcome.  There is no registry check before
`activeSessions.set(meetingId, session)` (line 1790): an existing entry for
`meetingId` is overwritten.  On adapter failure the `catch` block closes the
browser of whatever entry is registered and deletes the key. -/
def joinMeeting (st : EngineState) (meetingId meetingUrl sessionId : String)
    (now : Nat) (joinSuccess : Bool) : EngineState × JoinResult :=
  let platform := detectPlatform meetingUrl
  let framesDir := RECORDINGS_DIR ++ "/" ++ sessionId ++ "_frames"
  let fs := st.fs.mkdir framesDir
  let session : MeetingSession :=
    { id := sessionId, meetingId := meetingId, meetingUrl := meetingUrl,
      platform := platform, hasBrowser := true, hasPage := true,
      hasCdpSession := true, hasFfmpegProcess := false, status := "joining",
      startTime := now, transcriptSegments := [],
      videoFilePath := RECORDINGS_DIR ++ "/" ++ sessionId ++ "_video.mp4",
      audioFilePath := RECORDINGS_DIR ++ "/" ++ sessionId ++ "_audio.mp3",
      framesDir := framesDir, screenshotPaths := [],
      captionIntervalActive := false, screencastIntervalActive := false,
      isRecording := false, frameCount := 0 }
  if joinSuccess then
    let session := { session with status := "in_meeting" }
    let session := startRecording session
    let persisted := mapSet st.persisted meetingId
      { meetingId := meetingId, sessionId := sessionId, platform := platform,
        framesDir := framesDir, startTime := now, frameCount := 0 }
    let session := { session with captionIntervalActive := true }
    ({ st with activeSessions := mapSet st.activeSessions meetingId session,
               persisted := persisted, fs := fs },
     { success := true, sessionId := some sessionId, platform := some platform,
       message := some ("Successfully joined " ++ platform ++
         " meeting with recording enabled"),
       recordingStarted := some session.isRecording })
  else
    ({ st with activeSessions := mapDel st.activeSessions meetingId, fs := fs },
     { success := false, error := some "Failed to join meeting" })

/-- `takeScreenshot` (lines 2175–2189), applied to the session it resolves:
write `<sid>_screenshot_<epoch_ms>.png` and append its path; errors return
`null` without mutating the session. -/
def takeScreenshotOn (fs : FS) (s : MeetingSession) (now : Nat)
    (shotOk : Bool) : FS × MeetingSession :=
  if !s.hasPage then (fs, s)
  else if shotOk then
    let name := s.id ++ "_screenshot_" ++ toString now ++ ".png"
    (fs.writeFile RECORDINGS_DIR name 1,
     { s with screenshotPaths := s.screenshotPaths ++
         [RECORDINGS_DIR ++ "/" ++ name] })
  else (fs, s)

/-- The fixed transcript string returned by recovery (line 2399). -/
def recoveryTranscript : String :=
  "Session recovered after server restart. No live transcript available."

/-- `recoverAndProcessSession` (lines 2330–2406): refuse (and drop the
persistence entry) when the frames directory is missing or holds no `.png`
files; otherwise spawn the video-only encoder at 2 fps and, on exit 0, report
success with `duration = ⌊N/2⌋` and drop the persistence entry.  A non-zero
exit rejects into the `catch`, which returns failure without touching
persistence. -/
def recoverAndProcessSession (st : EngineState) (p : PersistedSession)
    (encOk : Bool) : EngineState × LeaveResult :=
  if !st.fs.dirExists p.framesDir then
    ({ st with persisted := mapDel st.persisted p.meetingId },
     { success := false, error := some "Frames directory not found" })
  else
    let frames := (st.fs.readdir p.framesDir).filter (fun f => jsEndsWith f ".png")
    if frames.length == 0 then
      ({ st with persisted := mapDel st.persisted p.meetingId },
       { success := false, error := some "No frames found" })
    else
      let videoPath := RECORDINGS_DIR ++ "/" ++ p.sessionId ++ "_video.mp4"
      let call : EncoderCall :=
        { framesDir := p.framesDir, videoPath := videoPath, fps := 2,
          withAudio := false, args := videoOnlyArgs p.framesDir videoPath 2 }
      if encOk then
        ({ st with persisted := mapDel st.persisted p.meetingId,
                   encoderCalls := st.encoderCalls ++ [call],
                   fs := st.fs.writeFile RECORDINGS_DIR
                     (p.sessionId ++ "_video.mp4") 1 },
         { success := true, meetingId := some p.meetingId,
           duration := some (frames.length / 2), videoPath := some videoPath,
           frameCount := some frames.length,
           transcript := some recoveryTranscript,
           message := some "Session recovered and video created from captured frames." })
      else
        ({ st with encoderCalls := st.encoderCalls ++ [call] },
         { success := false, error := some "FFmpeg failed" })

/-- The fallback transcript text of `leaveMeeting` (line 2232). -/
def emptyTranscriptFallback : String :=
  "No transcript captured. Enable live captions in the meeting for best results."

/-- `leaveMeeting` (lines 2192–2279): fall back to recovery when no live
session exists but a persisted one does; otherwise stop the caption interval,
take a final screenshot, stop recording (which may encode), close the
browser, sort the segments by timestamp, format the transcript, and remove
the session from registry and persistence. -/
def leaveMeeting (st : EngineState) (meetingId : String) (now : Nat)
    (shotOk : Bool) (whisper : List TranscriptSegment) (encOk : Bool) :
    EngineState × LeaveResult :=
  match mapGet st.activeSessions meetingId with
  | none =>
      match mapGet st.persisted meetingId with
      | some p => recoverAndProcessSession st p encOk
      | none => (st, { success := false,
                       error := some "No active session for this meeting" })
  | some s =>
      let s := { s with status := "ended", captionIntervalActive := false }
      let p1 := takeScreenshotOn st.fs s now shotOk
      let p2 := stopRecording p1.1 p1.2 whisper encOk
      let fs := p2.1
      let s := { p2.2.2 with hasBrowser := false }
      let duration := (now - s.startTime) / 1000
      let allTranscripts :=
        List.insertionSort (fun a b => a.timestamp ≤ b.timestamp)
          s.transcriptSegments
      let transcriptText :=
        if allTranscripts.length > 0 then
          String.intercalate "\n" (allTranscripts.map (fun seg =>
            "[" ++ formatTimestamp seg.timestamp ++ "] " ++ seg.speaker ++
            ": " ++ seg.text))
        else emptyTranscriptFallback
      ({ st with activeSessions := mapDel st.activeSessions meetingId,
                 persisted := mapDel st.persisted meetingId, fs := fs,
                 encoderCalls := st.encoderCalls ++ p2.2.1 },
       { success := true, duration := some duration,
         transcript := some transcriptText,
         transcriptSegments := allTranscripts,
         videoPath := if fs.fileExists s.videoFilePath
           then some s.videoFilePath else none,
         screenshots := s.screenshotPaths,
         frameCount := some s.frameCount })

/-- `toggleRecording` (lines 2306–2319): stop when recording (possibly
encoding), start otherwise, and report the resulting flag. -/
def toggleRecording (st : EngineState) (meetingId : String)
    (whisper : List TranscriptSegment) (encOk : Bool) : EngineState × Bool :=
  match mapGet st.activeSessions meetingId with
  | none => (st, false)
  | some s =>
      if s.isRecording then
        let p := stopRecording st.fs s whisper encOk
        ({ st with fs := p.1, encoderCalls := st.encoderCalls ++ p.2.1,
                   activeSessions := mapSet st.activeSessions meetingId p.2.2 },
         p.2.2.isRecording)
      else
        let s2 := startRecording s
        ({ st with activeSessions := mapSet st.activeSessions meetingId s2 },
         s2.isRecording)

/-! ### Properties under scrutiny -/

/-- Frame density: every index below `frameCount` has its frame file on disk
(the numbering the code actually produces starts at `frame_000000.png`). -/
def frameDense (fs : FS) (s : MeetingSession) : Prop :=
  ∀ i, i < s.frameCount →
    fs.fileExists (s.framesDir ++ "/" ++ ("frame_" ++ pad6 i ++ ".png")) = true

/-- Adjacent transcript segments have nondecreasing timestamps. -/
def timestampsMonotone (l : List TranscriptSegment) : Prop :=
  List.Chain' (fun a b => a.timestamp ≤ b.timestamp) l

/-- No two adjacent transcript segments carry identical text. -/
def noAdjacentDupTexts (l : List TranscriptSegment) : Prop :=
  List.Chain' (fun a b => a.text ≠ b.text) l

/-- A kernel-reducible decision procedure for `List.Chain'`. -/
def decChainKernel {α : Type} (R : α → α → Prop) [DecidableRel R] :
    (l : List α) → Decidable (List.Chain' R l)
  | [] => Decidable.isTrue List.chain'_nil
  | [a] => Decidable.isTrue (List.chain'_singleton a)
  | a :: b :: t =>
      match inferInstanceAs (Decidable (R a b)), decChainKernel R (b :: t) with
      | Decidable.isTrue h1, Decidable.isTrue h2 =>
          Decidable.isTrue (List.chain'_cons.mpr ⟨h1, h2⟩)
      | Decidable.isFalse h1, _ =>
          Decidable.isFalse (fun hc => h1 (List.chain'_cons.mp hc).1)
      | _, Decidable.isFalse h2 =>
          Decidable.isFalse (fun hc => h2 (List.chain'_cons.mp hc).2)

instance (l : List TranscriptSegment) : Decidable (timestampsMonotone l) :=
  decChainKernel _ l

instance (l : List TranscriptSegment) : Decidable (noAdjacentDupTexts l) :=
  decChainKernel _ l

/-! ### Concrete fixtures for counterexamples and witnesses -/

/-- The engine as it starts: nothing live, nothing persisted, empty disk. -/
def engine0 : EngineState :=
  { activeSessions := [], persisted := [], fs := { dirs := [], entries := [] },
    encoderCalls := [] }

/-- A placeholder used only to destructure `Option MeetingSession` lookups in
concrete fixtures (never reached on the traced keys). -/
def noSession : MeetingSession :=
  { id := "", meetingId := "", meetingUrl := "", platform := "",
    hasBrowser := false, hasPage := false, hasCdpSession := false,
    hasFfmpegProcess := false, status := "", startTime := 0,
    transcriptSegments := [], videoFilePath := "", audioFilePath := "",
    framesDir := "", screenshotPaths := [], captionIntervalActive := false,
    screencastIntervalActive := false, isRecording := false, frameCount := 0 }

/-- A Google Meet URL, as in the spec's scenarios. -/
def urlMeet : String := "https://meet.google.com/abc-defg-hij"

/-- Engine state after a successful `joinMeeting "M1"` at instant 0. -/
def stAfterJoin : EngineState :=
  (joinMeeting engine0 "M1" urlMeet "S1" 0 true).1

/-- The live session registered for `"M1"` after the join. -/
def sessAfterJoin : MeetingSession :=
  (mapGet stAfterJoin.activeSessions "M1").getD noSession

/-- Four consecutive successful screencast ticks after the join. -/
def run4 : FS × MeetingSession :=
  runFrameTicks stAfterJoin.fs sessAfterJoin [true, true, true, true]

/-- Engine state with `"M1"` recording and `frame_count = 4`. -/
def stBeforePause : EngineState :=
  { stAfterJoin with
    fs := run4.1,
    activeSessions := mapSet stAfterJoin.activeSessions "M1" run4.2 }

/-- `ToggleRecording` off at `frame_count = 4`. -/
def stPaused : EngineState := (toggleRecording stBeforePause "M1" [] true).1

/-- `ToggleRecording` back on after the pause. -/
def stResumed : EngineState := (toggleRecording stPaused "M1" [] true).1

/-- The paused `"M1"` session inside `stPaused`. -/
def sessPaused : MeetingSession :=
  (mapGet stPaused.activeSessions "M1").getD noSession

/-- A second join against the already-live `"M1"`, with a fresh session id. -/
def secondJoin : EngineState × JoinResult :=
  joinMeeting stAfterJoin "M1" urlMeet "S2" 5 true

/-- A filesystem holding a 100-byte audio file for session `S1`. -/
def fsSmallAudio : FS :=
  { dirs := [], entries := [("recordings", "S1_audio.mp3", 100)] }

/-- A filesystem holding a 6000-byte audio file for session `S1`. -/
def fsBigAudio : FS :=
  { dirs := [], entries := [("recordings", "S1_audio.mp3", 6000)] }

/-- The `"M1"` session after one caption-scraper append 10 s in. -/
def sessWithCaption : MeetingSession :=
  captionTick sessAfterJoin 10000 [⟨"A", "hi"⟩]

/-- A Whisper output segment timed from the start of the audio file. -/
def whisperSeg : TranscriptSegment := ⟨"Speaker", "w", 0, (9 : ℚ)/10⟩

/-- Persisted descriptor of the spec's crash-recovery scenario (`M6`/`S6`). -/
def persistedS6 : PersistedSession :=
  { meetingId := "M6", sessionId := "S6", platform := "teams",
    framesDir := "recordings/S6_frames", startTime := 0, frameCount := 0 }

/-- Disk state for recovery: `S6_frames` holds 5 PNG frames. -/
def fsRecover : FS :=
  { dirs := ["recordings/S6_frames"],
    entries := (List.range 5).map
      (fun i => ("recordings/S6_frames", "frame_" ++ pad6 i ++ ".png", 1)) }

/-- Engine state after a restart: `M6` persisted, nothing live. -/
def stRecover : EngineState :=
  { activeSessions := [], persisted := [("M6", persistedS6)], fs := fsRecover,
    encoderCalls := [] }

/-- Engine state after a restart whose frames directory is gone. -/
def persistedS7 : PersistedSession :=
  { meetingId := "M7", sessionId := "S7", platform := "teams",
    framesDir := "recordings/S7_frames", startTime := 0, frameCount := 0 }

def stRecoverGone : EngineState :=
  { activeSessions := [], persisted := [("M7", persistedS7)],
    fs := { dirs := [], entries := [] }, encoderCalls := [] }

end MeetingBot

open MeetingBot

/-! ### Helper lemmas about the registry maps and the filesystem -/

theorem mapGet_mapSet_self {α : Type} (m : List (String × α)) (k : String)
    (v : α) : mapGet (mapSet m k v) k = some v := by
  simp [mapGet, mapSet, List.find?_cons_of_pos]

theorem mapGet_mapDel_self {α : Type} (m : List (String × α)) (k : String) :
    mapGet (mapDel m k) k = none := by
  unfold mapGet mapDel
  rw [List.find?_eq_none.mpr]
  · rfl
  · intro x hx
    rcases List.mem_filter.mp hx with ⟨-, hne⟩
    simpa using hne

theorem mapSet_mapSet_self {α : Type} (m : List (String × α)) (k : String)
    (v w : α) : mapSet (mapSet m k w) k v = mapSet m k v := by
  simp [mapSet, List.filter_filter]

theorem mapDel_mapSet_self {α : Type} (m : List (String × α)) (k : String)
    (w : α) : mapDel (mapSet m k w) k = mapDel m k := by
  simp [mapSet, mapDel, List.filter_filter]

/-- **C1 counterexample.** With a live session (`S1`) already registered for
`"M1"`, a second `joinMeeting` for `"M1"` does not fail with `AlreadyActive`:
it reports success with no error, and the registry entry now holds the new
session `S2` — the original entry is not left unchanged. -/
theorem C1_duplicate_join_cex :
    (mapGet stAfterJoin.activeSessions "M1").map (fun s => s.id) = some "S1" ∧
    secondJoin.2.success = true ∧
    secondJoin.2.error = none ∧
    (mapGet secondJoin.1.activeSessions "M1").map (fun s => s.id) = some "S2" := by
  refine ⟨?_, ?_, ?_, ?_⟩ <;> decide

/-- **C1 amended.** `joinMeeting` performs no duplicate check at all: its
entire outcome — post-state and result — is identical whether or not a live
session is already registered under `meeting_id` (the `activeSessions.set` at
line 1790 simply overwrites), and a join whose adapter succeeds always
reports success.  No `AlreadyActive` error exists in this code path. -/
theorem C1_join_ignores_existing_session (st : EngineState)
    (meetingId meetingUrl sessionId : String) (now : Nat) (ok : Bool)
    (s0 : MeetingSession) :
    joinMeeting { st with activeSessions := mapSet st.activeSessions meetingId s0 }
        meetingId meetingUrl sessionId now ok =
      joinMeeting st meetingId meetingUrl sessionId now ok ∧
    (joinMeeting st meetingId meetingUrl sessionId now true).2.success = true := by
  constructor
  · cases ok <;> simp [joinMeeting, mapSet_mapSet_self, mapDel_mapSet_self]
  · simp [joinMeeting]

theorem FS.fileExists_writeFile (fs : FS) (d n : String) (sz : Nat) (p : String) :
    ((fs.writeFile d n sz).fileExists p = true) ↔
      (p = d ++ "/" ++ n ∨ fs.fileExists p = true) := by
  unfold FS.writeFile FS.fileExists
  simp only [List.any_eq_true, List.mem_cons, List.mem_filter, beq_iff_eq,
    Bool.not_eq_true', Bool.and_eq_true]
  constructor
  · rintro ⟨x, hx | ⟨hxmem, -⟩, hpx⟩
    · subst hx
      exact Or.inl hpx.symm
    · exact Or.inr ⟨x, hxmem, hpx⟩
  · rintro (rfl | ⟨x, hx, hpx⟩)
    · exact ⟨(d, n, sz), Or.inl rfl, rfl⟩
    · by_cases hk : x.1 = d ∧ x.2.1 = n
      · refine ⟨(d, n, sz), Or.inl rfl, ?_⟩
        rw [← hk.1, ← hk.2]
        exact hpx
      · refine ⟨x, Or.inr ⟨hx, ?_⟩, hpx⟩
        simp only [Bool.and_eq_false_iff]
        rcases Decidable.not_and_iff_or_not.mp hk with h | h
        · exact Or.inl (by simpa using h)
        · exact Or.inr (by simpa using h)

theorem frameDense_frameTick (fs : FS) (s : MeetingSession) (ok : Bool)
    (h : frameDense fs s) :
    frameDense (frameTick fs s ok).1 (frameTick fs s ok).2 := by
  unfold frameTick
  split
  · exact h
  · split
    · intro i hi
      rw [FS.fileExists_writeFile]
      rcases Nat.lt_succ_iff_lt_or_eq.mp hi with hlt | heq
      · exact Or.inr (h i hlt)
      · subst heq
        exact Or.inl rfl
    · exact h

theorem frameDense_runFrameTicks (fs : FS) (s : MeetingSession)
    (oks : List Bool) (h : frameDense fs s) :
    frameDense (runFrameTicks fs s oks).1 (runFrameTicks fs s oks).2 := by
  induction oks generalizing fs s with
  | nil => exact h
  | cons ok rest ih => exact ih _ _ (frameDense_frameTick fs s ok h)

/-- **C2 counterexample.** One successful screencast tick after a join gives
`frame_count = 1`, yet `frames_dir/frame_000001.png` does not exist — the
code writes `frame_000000.png` (pad of the pre-increment counter, line 1999),
so the claimed density over `[1, frame_count]` fails at `i = 1`. -/
theorem C2_frame_numbering_cex :
    (frameTick stAfterJoin.fs sessAfterJoin true).2.frameCount = 1 ∧
    (frameTick stAfterJoin.fs sessAfterJoin true).1.fileExists
      "recordings/S1_frames/frame_000001.png" = false ∧
    (frameTick stAfterJoin.fs sessAfterJoin true).1.fileExists
      "recordings/S1_frames/frame_000000.png" = true := by
  refine ⟨?_, ?_, ?_⟩ <;> decide

/-- **C2 amended.** Frame files are densely numbered starting at
`frame_000000.png`: recording starts with `frame_count = 0`, and any run of
screencast ticks preserves the density invariant that
`frames_dir/frame_<i:06>.png` exists for every `i ∈ [0, frame_count−1]`
(failed screenshots skip both the write and the increment). -/
theorem C2_frame_density_from_zero (s0 : MeetingSession) (fs : FS)
    (s : MeetingSession) (oks : List Bool)
    (hp : s0.hasPage = true) (hc : s0.hasCdpSession = true)
    (h : frameDense fs s) :
    (startRecording s0).frameCount = 0 ∧
    frameDense (runFrameTicks fs s oks).1 (runFrameTicks fs s oks).2 := by
  constructor
  · unfold startRecording startAudioRecording
    simp [hp, hc]
  · exact frameDense_runFrameTicks fs s oks h

/-- **C2 witness.** The amended density theorem applied to the concrete
post-join state and two successful ticks. -/
theorem C2_frame_density_witness :
    sessAfterJoin.hasPage = true ∧ sessAfterJoin.hasCdpSession = true ∧
    frameDense stAfterJoin.fs sessAfterJoin ∧
    ((startRecording sessAfterJoin).frameCount = 0 ∧
      frameDense (runFrameTicks stAfterJoin.fs sessAfterJoin [true, true]).1
        (runFrameTicks stAfterJoin.fs sessAfterJoin [true, true]).2) := by
  have h0 : frameDense stAfterJoin.fs sessAfterJoin := by
    intro i hi
    rw [show sessAfterJoin.frameCount = 0 by decide] at hi
    exact absurd hi (Nat.not_lt_zero i)
  exact ⟨by decide, by decide, h0,
    C2_frame_density_from_zero sessAfterJoin stAfterJoin.fs sessAfterJoin
      [true, true] (by decide) (by decide) h0⟩

theorem stopAudioRecording_frameCount (s : MeetingSession) (fs : FS)
    (w : List TranscriptSegment) :
    (stopAudioRecording s fs w).frameCount = s.frameCount := by
  unfold stopAudioRecording
  dsimp only
  repeat' split
  all_goals rfl

/-- **C3 counterexample.** `frame_count` is not monotonically non-decreasing
across `ToggleRecording`: after a pause at `frame_count = 4`, resuming resets
it to `0` (the `session.frameCount = 0` in `startRecording`, line 1988), so
it drops below 4. -/
theorem C3_frameCount_reset_cex :
    run4.2.frameCount = 4 ∧
    (mapGet stPaused.activeSessions "M1").map (fun s => s.frameCount) = some 4 ∧
    (mapGet stResumed.activeSessions "M1").map (fun s => s.frameCount) = some 0 := by
  refine ⟨?_, ?_, ?_⟩ <;> decide

/-- **C3 amended.** `frame_count` is non-decreasing while a recording run is
live — a screencast tick never decreases it and stopping leaves it unchanged
— but `startRecording` resets it to `0`, and `ToggleRecording` back on calls
`startRecording`, so after a pause-resume the count restarts from `0`. -/
theorem C3_frameCount_monotone_within_run (st : EngineState) (mid : String)
    (s : MeetingSession) (hs : mapGet st.activeSessions mid = some s)
    (hrec : s.isRecording = false) (hp : s.hasPage = true)
    (hc : s.hasCdpSession = true) :
    (∀ fs s1 ok, s1.frameCount ≤ (frameTick fs s1 ok).2.frameCount) ∧
    (∀ fs s1 w e, (stopRecording fs s1 w e).2.2.frameCount = s1.frameCount) ∧
    (∀ w e, (mapGet (toggleRecording st mid w e).1.activeSessions mid).map
      (fun s2 => s2.frameCount) = some 0) := by
  refine ⟨?_, ?_, ?_⟩
  · intro fs s1 ok
    unfold frameTick
    split
    · exact Nat.le_refl _
    · split
      · exact Nat.le_succ _
      · exact Nat.le_refl _
  · intro fs s1 w e
    unfold stopRecording
    dsimp only
    split
    · rfl
    · split
      · exact stopAudioRecording_frameCount _ fs w
      · exact stopAudioRecording_frameCount _ fs w
  · intro w e
    unfold toggleRecording
    rw [hs]
    dsimp only
    rw [hrec]
    simp only [Bool.false_eq_true, if_false]
    rw [mapGet_mapSet_self]
    unfold startRecording startAudioRecording
    simp [hp, hc]

/-- **C3 witness.** The amended theorem applied to the concrete paused state
with `frame_count = 4`. -/
theorem C3_frameCount_witness :
    mapGet stPaused.activeSessions "M1" = some sessPaused ∧
    sessPaused.isRecording = false ∧
    (mapGet (toggleRecording stPaused "M1" [] true).1.activeSessions "M1").map
      (fun s2 => s2.frameCount) = some 0 := by
  exact ⟨by decide, by decide,
    (C3_frameCount_monotone_within_run stPaused "M1" sessPaused (by decide)
      (by decide) (by decide) (by decide)).2.2 [] true⟩

theorem stopRecording_calls_length (fs : FS) (s : MeetingSession)
    (w : List TranscriptSegment) (e : Bool) :
    (stopRecording fs s w e).2.1.length =
      if s.isRecording = true ∧ 0 < s.frameCount then 1 else 0 := by
  unfold stopRecording
  dsimp only
  split
  · rename_i h
    rw [Bool.not_eq_eq_eq_not] at h
    simp [h]
  · rename_i h
    have hrec : s.isRecording = true := by
      by_contra hc
      exact h (by simp [Bool.not_eq_true] at hc ⊢; exact hc)
    split
    · rename_i h2
      rw [stopAudioRecording_frameCount] at h2
      simp only [List.length_cons, List.length_nil]
      rw [if_pos ⟨hrec, by simpa using h2⟩]
    · rename_i h2
      rw [stopAudioRecording_frameCount] at h2
      simp only [List.length_nil]
      rw [if_neg]
      rintro ⟨-, hcount⟩
      exact h2 (by simpa using hcount)

theorem stopRecording_calls_le_one (fs : FS) (s : MeetingSession)
    (w : List TranscriptSegment) (e : Bool) :
    (stopRecording fs s w e).2.1.length ≤ 1 := by
  rw [stopRecording_calls_length]
  split <;> omega

theorem recover_calls_le (st : EngineState) (p : PersistedSession) (e : Bool) :
    (recoverAndProcessSession st p e).1.encoderCalls.length ≤
      st.encoderCalls.length + 1 := by
  unfold recoverAndProcessSession
  dsimp only
  repeat' split
  all_goals simp

/-- **C4 counterexample.** With `"M1"` recording at `frame_count = 4` and
no encoder invocation so far, a single `ToggleRecording` (pause) already
invokes the frames-to-MP4 encoder — `stopRecording` calls
`convertFramesToVideo` (line 2045) and `toggleRecording` calls
`stopRecording` (line 2313) — so the encoder is not reserved to `Leave`. -/
theorem C4_encoder_in_toggle_cex :
    stBeforePause.encoderCalls = [] ∧
    (toggleRecording stBeforePause "M1" [] true).1.encoderCalls.length = 1 := by
  exact ⟨by decide, by decide⟩

/-- **C4 amended.** The encoder runs exactly once per `stopRecording` of a
recording session with `frame_count > 0` — and `stopRecording` is reached
both from `Leave` and from `ToggleRecording` when pausing, so a session can
encode several times.  Each single `Leave` or `ToggleRecording` call adds at
most one encoder invocation. -/
theorem C4_encoder_per_stopRecording :
    (∀ fs s w e, (stopRecording fs s w e).2.1.length =
      if s.isRecording = true ∧ 0 < s.frameCount then 1 else 0) ∧
    (∀ st mid now sh w e,
      (leaveMeeting st mid now sh w e).1.encoderCalls.length ≤
        st.encoderCalls.length + 1) ∧
    (∀ st mid w e, (toggleRecording st mid w e).1.encoderCalls.length ≤
      st.encoderCalls.length + 1) := by
  refine ⟨stopRecording_calls_length, ?_, ?_⟩
  · intro st mid now sh w e
    unfold leaveMeeting
    split
    · split
      · exact recover_calls_le st _ e
      · simp
    · dsimp only
      simp only [List.length_append]
      exact Nat.add_le_add_left (stopRecording_calls_le_one _ _ w e) _
  · intro st mid w e
    unfold toggleRecording
    split
    · simp
    · dsimp only
      split
      · simp only [List.length_append]
        exact Nat.add_le_add_left (stopRecording_calls_le_one _ _ w e) _
      · simp

theorem FS.fileExists_of_fileSize (fs : FS) (p : String) (sz : Nat)
    (h : fs.fileSize p = some sz) : fs.fileExists p = true := by
  unfold FS.fileSize at h
  unfold FS.fileExists
  rcases Option.map_eq_some'.mp h with ⟨e, he, -⟩
  have hmem := List.mem_of_find?_eq_some he
  have hpred := List.find?_some he
  exact List.any_eq_true.mpr ⟨e, hmem, hpred⟩

/-- **C5 counterexample.** With a 100-byte audio file — which exists but is
not larger than 5 KB — `convertFramesToVideo` still chooses the with-audio
FFmpeg command shape: its existence check (line 1659) has no size
condition, so "with audio iff exists AND size > 5 KB" fails. -/
theorem C5_audio_size_not_checked_cex :
    fsSmallAudio.fileExists "recordings/S1_audio.mp3" = true ∧
    fsSmallAudio.fileSize "recordings/S1_audio.mp3" = some 100 ∧
    ¬ (100 > 5000) ∧
    (convertFramesToVideo fsSmallAudio "recordings/S1_frames"
      "recordings/S1_video.mp4" 2 (some "recordings/S1_audio.mp3")).withAudio
      = true ∧
    (convertFramesToVideo fsSmallAudio "recordings/S1_frames"
      "recordings/S1_video.mp4" 2 (some "recordings/S1_audio.mp3")).args =
      withAudioArgs "recordings/S1_frames" "recordings/S1_video.mp4" 2
        "recordings/S1_audio.mp3" := by
  refine ⟨?_, ?_, ?_, ?_, ?_⟩ <;> decide

/-- **C5 amended.** The encoder uses the with-audio command shape iff an
audio path was passed, is nonempty, and the file exists — no size condition;
the "larger than 5 KB" threshold lives in `stopAudioRecording`, where it
gates only whether Whisper transcription output is appended. -/
theorem C5_audio_shape_iff_exists (fs : FS) (d v : String) (fps : Nat)
    (ap : Option String) (s : MeetingSession) (w : List TranscriptSegment)
    (sz : Nat) (hproc : s.hasFfmpegProcess = true)
    (hsz : fs.fileSize s.audioFilePath = some sz) :
    ((convertFramesToVideo fs d v fps ap).withAudio = true ↔
      ∃ p, ap = some p ∧ p ≠ "" ∧ fs.fileExists p = true) ∧
    ((convertFramesToVideo fs d v fps ap).withAudio = true →
      (convertFramesToVideo fs d v fps ap).args =
        withAudioArgs d v fps (ap.getD "")) ∧
    ((convertFramesToVideo fs d v fps ap).withAudio = false →
      (convertFramesToVideo fs d v fps ap).args = videoOnlyArgs d v fps) ∧
    ((stopAudioRecording s fs w).transcriptSegments =
      if sz > 5000 then s.transcriptSegments ++ w
      else s.transcriptSegments) := by
  refine ⟨?_, ?_, ?_, ?_⟩
  · unfold convertFramesToVideo
    cases ap with
    | none => simp
    | some p => simp [Bool.and_eq_true, bne_iff_ne]
  · intro h
    unfold convertFramesToVideo at h ⊢
    dsimp only at h ⊢
    rw [if_pos h]
  · intro h
    unfold convertFramesToVideo at h ⊢
    dsimp only at h ⊢
    rw [if_neg]
    rw [h]
    simp
  · have hex : fs.fileExists s.audioFilePath = true :=
      FS.fileExists_of_fileSize fs _ sz hsz
    unfold stopAudioRecording
    dsimp only
    rw [if_pos hproc, if_pos hex]
    rw [hsz]
    dsimp only
    split <;> rfl

/-- **C5 witness.** The amended theorem applied to the post-join session and
a 6000-byte audio file. -/
theorem C5_audio_shape_witness :
    sessAfterJoin.hasFfmpegProcess = true ∧
    fsBigAudio.fileSize sessAfterJoin.audioFilePath = some 6000 ∧
    ((stopAudioRecording sessAfterJoin fsBigAudio [whisperSeg]).transcriptSegments =
      if 6000 > 5000 then sessAfterJoin.transcriptSegments ++ [whisperSeg]
      else sessAfterJoin.transcriptSegments) := by
  exact ⟨by decide, by decide,
    (C5_audio_shape_iff_exists fsBigAudio "d" "v" 2 none sessAfterJoin
      [whisperSeg] 6000 (by decide) (by decide)).2.2.2⟩

/-- **C6 counterexample.** The stored transcript list is not always
timestamp-monotone: a caption scraped 10 s in is followed, when recording
stops with a >5 KB audio file, by Whisper segments whose timestamps restart
from the beginning of the audio file (line 1964), so an adjacent pair
decreases (10000 followed by 0). -/
theorem C6_whisper_breaks_monotonicity_cex :
    timestampsMonotone sessWithCaption.transcriptSegments ∧
    sessWithCaption.hasFfmpegProcess = true ∧
    ¬ timestampsMonotone
      (stopAudioRecording sessWithCaption fsBigAudio
        [whisperSeg]).transcriptSegments := by
  refine ⟨?_, ?_, ?_⟩ <;> decide

theorem processCaption_mono (s : MeetingSession) (now : Nat) (c : Caption)
    (hmono : timestampsMonotone s.transcriptSegments)
    (hlast : ∀ l, s.transcriptSegments.getLast? = some l →
      l.timestamp ≤ now - s.startTime) :
    timestampsMonotone (processCaption s now c).transcriptSegments ∧
    (∀ l, (processCaption s now c).transcriptSegments.getLast? = some l →
      l.timestamp ≤ now - s.startTime) ∧
    (processCaption s now c).startTime = s.startTime := by
  unfold processCaption
  split
  · rename_i hnone
    have hnil : s.transcriptSegments = [] := List.getLast?_eq_none_iff.mp hnone
    refine ⟨?_, ?_, rfl⟩
    · rw [hnil]
      exact List.chain'_singleton _
    · intro l hl
      rw [hnil] at hl
      simp at hl
      subst hl
      exact Nat.le_refl _
  · rename_i lastSegment hsome
    split
    · refine ⟨?_, ?_, rfl⟩
      · refine List.chain'_append.mpr ⟨hmono, List.chain'_singleton _, ?_⟩
        intro x hx y hy
        simp at hy
        subst hy
        exact hlast x hx
      · intro l hl
        rw [List.getLast?_concat] at hl
        simp at hl
        subst hl
        exact Nat.le_refl _
    · exact ⟨hmono, hlast, rfl⟩

/-- **C6 amended.** Caption-scraper appends do keep timestamps monotone:
every appended segment carries `now − started_at`, so if the stored list is
monotone and its last timestamp is at most `now − started_at`, it stays
monotone after any scraper tick.  Monotonicity is only broken by the Whisper
segments that `stopAudioRecording` appends (their timestamps restart at the
audio file's origin); `leaveMeeting` re-sorts by timestamp before formatting
the transcript. -/
theorem C6_caption_ticks_monotone (s : MeetingSession) (now : Nat)
    (cands : List Caption)
    (hmono : timestampsMonotone s.transcriptSegments)
    (hlast : ∀ l, s.transcriptSegments.getLast? = some l →
      l.timestamp ≤ now - s.startTime) :
    timestampsMonotone (captionTick s now cands).transcriptSegments := by
  induction cands generalizing s with
  | nil => exact hmono
  | cons c rest ih =>
    have h := processCaption_mono s now c hmono hlast
    have heq : captionTick s now (c :: rest) =
      captionTick (processCaption s now c) now rest := rfl
    rw [heq]
    apply ih
    · exact h.1
    · intro l hl
      rw [h.2.2]
      exact h.2.1 l hl

/-- **C6 witness.** The amended caption-tick monotonicity theorem applied to
the concrete post-join session and one candidate at 5 s. -/
theorem C6_caption_monotone_witness :
    timestampsMonotone sessAfterJoin.transcriptSegments ∧
    timestampsMonotone
      (captionTick sessAfterJoin 5000 [⟨"A", "x"⟩]).transcriptSegments := by
  have h1 : timestampsMonotone sessAfterJoin.transcriptSegments := by decide
  have h2 : ∀ l, sessAfterJoin.transcriptSegments.getLast? = some l →
      l.timestamp ≤ 5000 - sessAfterJoin.startTime := by
    intro l hl
    rw [show sessAfterJoin.transcriptSegments = [] from by decide] at hl
    simp at hl
  exact ⟨h1, C6_caption_ticks_monotone sessAfterJoin 5000 [⟨"A", "x"⟩] h1 h2⟩

theorem processCaption_append_iff (s : MeetingSession) (now : Nat) (c : Caption) :
    (processCaption s now c).transcriptSegments =
      (if s.transcriptSegments.getLast?.all (fun l => l.text != c.text) = true
       then s.transcriptSegments ++
         [⟨c.speaker, c.text, now - s.startTime, (19 : ℚ)/20⟩]
       else s.transcriptSegments) := by
  unfold processCaption
  split
  · rename_i hnone
    rw [hnone]
    rfl
  · rename_i l hsome
    split
    · rename_i hne
      have hcond : (some l).all (fun x => x.text != c.text) = true := by
        simp [hne]
      rw [hsome, hcond]
      simp
    · rename_i hne
      have heq : l.text = c.text := not_not.mp (by simpa using hne)
      have hcond : (some l).all (fun x => x.text != c.text) = false := by
        simp [heq]
      rw [hsome, hcond]
      simp

theorem processCaption_noDup (s : MeetingSession) (now : Nat) (c : Caption)
    (h : noAdjacentDupTexts s.transcriptSegments) :
    noAdjacentDupTexts (processCaption s now c).transcriptSegments := by
  unfold processCaption
  split
  · rename_i hnone
    rw [List.getLast?_eq_none_iff.mp hnone]
    exact List.chain'_singleton _
  · rename_i l hsome
    split
    · rename_i hne
      refine List.chain'_append.mpr ⟨h, List.chain'_singleton _, ?_⟩
      intro x hx y hy
      simp at hy
      subst hy
      rw [hsome] at hx
      simp at hx
      subst hx
      exact hne
    · exact h

theorem captionTick_noDup (s : MeetingSession) (now : Nat)
    (cands : List Caption) (h : noAdjacentDupTexts s.transcriptSegments) :
    noAdjacentDupTexts (captionTick s now cands).transcriptSegments := by
  induction cands generalizing s with
  | nil => exact h
  | cons c rest ih =>
    have heq : captionTick s now (c :: rest) =
      captionTick (processCaption s now c) now rest := rfl
    rw [heq]
    exact ih _ (processCaption_noDup s now c h)

/-- **C7.** Per candidate, a segment — timestamp `now − started_at`,
confidence `0.95`, the candidate's (already defaulted) speaker — is appended
iff the candidate's text differs from the last stored segment's text; hence a
transcript with no adjacent duplicate texts keeps that property through any
scraper tick; the spec's example sequence `hello, hello, world, hello` stores
exactly `hello, world, hello`; and the extraction default maps an absent or
empty speaker to `"Speaker"`. -/
theorem C7_caption_dedup (s : MeetingSession) (now : Nat)
    (cands : List Caption) (h : noAdjacentDupTexts s.transcriptSegments) :
    (∀ s1 now1 c, (processCaption s1 now1 c).transcriptSegments =
      (if s1.transcriptSegments.getLast?.all (fun l => l.text != c.text) = true
       then s1.transcriptSegments ++
         [⟨c.speaker, c.text, now1 - s1.startTime, (19 : ℚ)/20⟩]
       else s1.transcriptSegments)) ∧
    noAdjacentDupTexts (captionTick s now cands).transcriptSegments ∧
    ((captionTick (captionTick (captionTick (captionTick sessAfterJoin 1000
        [⟨"A", "hello"⟩]) 2000 [⟨"A", "hello"⟩]) 3000 [⟨"A", "world"⟩]) 4000
        [⟨"A", "hello"⟩]).transcriptSegments.map (fun seg => seg.text) =
      ["hello", "world", "hello"]) ∧
    jsOrElse none "Speaker" = "Speaker" ∧
    jsOrElse (some "") "Speaker" = "Speaker" := by
  exact ⟨processCaption_append_iff, captionTick_noDup s now cands h,
    by decide, by decide, by decide⟩

/-- **C7 witness.** The dedup theorem applied to the concrete post-join
session and one candidate. -/
theorem C7_caption_dedup_witness :
    noAdjacentDupTexts sessAfterJoin.transcriptSegments ∧
    noAdjacentDupTexts
      (captionTick sessAfterJoin 1000 [⟨"A", "hello"⟩]).transcriptSegments := by
  exact ⟨by decide,
    (C7_caption_dedup sessAfterJoin 1000 [⟨"A", "hello"⟩] (by decide)).2.1⟩

/-- **C8.** For a persisted session whose frames directory holds `N ≥ 1` PNG
files and whose encoder run exits cleanly, recovery reports success with
`duration = ⌊N/2⌋` (2 fps), the `<sid>_video.mp4` path, the fixed recovery
transcript string, `frameCount = N`, removes the `meeting_id` entry from the
persistence map, and logs exactly one video-only 2 fps encoder invocation;
with zero PNGs it refuses: failure and no video path. -/
theorem C8_recover_success (st : EngineState) (p : PersistedSession)
    (hdir : st.fs.dirExists p.framesDir = true)
    (hn : 0 < ((st.fs.readdir p.framesDir).filter
      (fun f => jsEndsWith f ".png")).length) :
    ((recoverAndProcessSession st p true).2.success = true ∧
     (recoverAndProcessSession st p true).2.duration =
       some (((st.fs.readdir p.framesDir).filter
         (fun f => jsEndsWith f ".png")).length / 2) ∧
     (recoverAndProcessSession st p true).2.videoPath =
       some (RECORDINGS_DIR ++ "/" ++ p.sessionId ++ "_video.mp4") ∧
     (recoverAndProcessSession st p true).2.transcript =
       some recoveryTranscript ∧
     (recoverAndProcessSession st p true).2.frameCount =
       some ((st.fs.readdir p.framesDir).filter
         (fun f => jsEndsWith f ".png")).length ∧
     mapGet (recoverAndProcessSession st p true).1.persisted p.meetingId = none ∧
     (recoverAndProcessSession st p true).1.encoderCalls =
       st.encoderCalls ++ [⟨p.framesDir,
         RECORDINGS_DIR ++ "/" ++ p.sessionId ++ "_video.mp4", 2, false,
         videoOnlyArgs p.framesDir
           (RECORDINGS_DIR ++ "/" ++ p.sessionId ++ "_video.mp4") 2⟩]) ∧
    (∀ st2 p2 e, st2.fs.dirExists p2.framesDir = true →
      ((st2.fs.readdir p2.framesDir).filter
        (fun f => jsEndsWith f ".png")).length = 0 →
      (recoverAndProcessSession st2 p2 e).2.success = false ∧
      (recoverAndProcessSession st2 p2 e).2.videoPath = none) := by
  constructor
  · have hb : (((st.fs.readdir p.framesDir).filter
        (fun f => jsEndsWith f ".png")).length == 0) = false := by
      simp only [beq_eq_false_iff_ne]
      omega
    unfold recoverAndProcessSession
    dsimp only
    rw [hdir]
    simp only [Bool.not_true, Bool.false_eq_true, if_false]
    rw [hb]
    simp only [Bool.false_eq_true, if_false]
    simp only [if_true]
    refine ⟨?_, ?_, ?_, ?_, ?_, ?_, ?_⟩ <;>
      first | trivial | exact mapGet_mapDel_self _ _
  · intro st2 p2 e h1 h2
    unfold recoverAndProcessSession
    dsimp only
    rw [h1]
    simp only [Bool.not_true, Bool.false_eq_true, if_false]
    rw [h2]
    exact ⟨rfl, rfl⟩

/-- **C8 witness.** Recovery of the persisted `M6`/`S6` session whose frames
directory holds 5 PNGs: success, `duration = 2`, persistence cleared. -/
theorem C8_recover_witness :
    stRecover.fs.dirExists persistedS6.framesDir = true ∧
    0 < ((stRecover.fs.readdir persistedS6.framesDir).filter
      (fun f => jsEndsWith f ".png")).length ∧
    (recoverAndProcessSession stRecover persistedS6 true).2.success = true ∧
    (recoverAndProcessSession stRecover persistedS6 true).2.duration = some 2 ∧
    mapGet (recoverAndProcessSession stRecover persistedS6 true).1.persisted
      "M6" = none := by
  have h := C8_recover_success stRecover persistedS6 (by decide) (by decide)
  exact ⟨by decide, by decide, h.1.1, by decide, h.1.2.2.2.2.2.1⟩

/-- **C10.** When the persisted session's frames directory is missing or
holds zero PNG files, recovery returns failure with no video, runs no
encoder, and still removes the `meeting_id` entry from the persistence map —
so such a failed recovery is never retried from persistence. -/
theorem C10_failed_recovery_cleanup (st : EngineState) (p : PersistedSession)
    (e : Bool)
    (h : st.fs.dirExists p.framesDir = false ∨
      ((st.fs.readdir p.framesDir).filter
        (fun f => jsEndsWith f ".png")).length = 0) :
    (recoverAndProcessSession st p e).2.success = false ∧
    (recoverAndProcessSession st p e).2.videoPath = none ∧
    mapGet (recoverAndProcessSession st p e).1.persisted p.meetingId = none ∧
    (recoverAndProcessSession st p e).1.encoderCalls = st.encoderCalls := by
  by_cases hd : st.fs.dirExists p.framesDir = true
  · have h2 : ((st.fs.readdir p.framesDir).filter
        (fun f => jsEndsWith f ".png")).length = 0 :=
      h.resolve_left (by simp [hd])
    unfold recoverAndProcessSession
    dsimp only
    rw [hd]
    simp only [Bool.not_true, Bool.false_eq_true, if_false]
    rw [h2]
    simp only [beq_self_eq_true, if_true]
    refine ⟨?_, ?_, ?_, ?_⟩ <;>
      first | trivial | exact mapGet_mapDel_self _ _
  · have hd' : st.fs.dirExists p.framesDir = false := by
      simpa using hd
    unfold recoverAndProcessSession
    dsimp only
    rw [hd']
    simp only [Bool.not_false, if_true]
    refine ⟨?_, ?_, ?_, ?_⟩ <;>
      first | trivial | exact mapGet_mapDel_self _ _

/-- **C10 witness.** The cleanup theorem applied to the persisted `M7`
session whose frames directory no longer exists. -/
theorem C10_failed_recovery_witness :
    stRecoverGone.fs.dirExists persistedS7.framesDir = false ∧
    ((recoverAndProcessSession stRecoverGone persistedS7 true).2.success = false ∧
     (recoverAndProcessSession stRecoverGone persistedS7 true).2.videoPath = none ∧
     mapGet (recoverAndProcessSession stRecoverGone persistedS7
       true).1.persisted "M7" = none ∧
     (recoverAndProcessSession stRecoverGone persistedS7 true).1.encoderCalls =
       stRecoverGone.encoderCalls) := by
  exact ⟨by decide,
    C10_failed_recovery_cleanup stRecoverGone persistedS7 true
      (Or.inl (by decide))⟩

/-- **C9.** The timestamp formatter maps milliseconds to zero-padded
`HH:MM:SS` with hours uncapped: `fmt 0 = "00:00:00"`,
`fmt 3599000 = "00:59:59"`, `fmt 3600000 = "01:00:00"`, and
`fmt 90061000 = "25:01:01"` (25 hours renders as `"25"`). -/
theorem C9_formatTimestamp_values :
    formatTimestamp 0 = "00:00:00" ∧
    formatTimestamp 3599000 = "00:59:59" ∧
    formatTimestamp 3600000 = "01:00:00" ∧
    formatTimestamp 90061000 = "25:01:01" := by
  refine ⟨?_, ?_, ?_, ?_⟩ <;> decide
